import Mathlib

/-!
# Verification of `geomdl/control_points.py` (NURBS-Python control-point managers)

Shallow embedding of the control-point manager module: `AbstractManager` and its
three concrete subclasses `CurveManager`, `SurfaceManager`, `VolumeManager`.

The managers store a flat list of control points (`self._points`) addressed by
per-dimension multi-indices.  Python-level behaviour that matters here is
modelled explicitly:

* Python list indexing (`xs[i]` / `xs[i] = v`) supports negative-index
  wraparound and raises `IndexError` when the (possibly wrapped) index is out
  of range — modelled by `pylist_get` / `pylist_set`.
* Tuple access on `*args` (`args[0]`, `args[1]`, ...) raises `IndexError` when
  too few arguments were supplied — modelled by `pytuple_get`.
* Exceptions are modelled by an `Except Err` result; `GeomdlException msg`
  becomes `Err.geomdl msg`.  `CurveManager.get_ctrlpt`'s `except KeyError`
  handler is modelled verbatim (`Err.keyError`), although list indexing never
  raises `KeyError`.
* Control points are opaque Python values (`PyVal`): the code only checks
  `isinstance(pt, (list, tuple))` before storing them.
-/

set_option autoImplicit false

namespace ControlPoints

/-- Python values as far as this module inspects them: the stored control
points (`pt` arguments) and the empty placeholder `[]` used by `reset`. -/
inductive PyVal where
  | none
  | int (n : Int)
  | str (s : String)
  | list (xs : List PyVal)
  | tuple (xs : List PyVal)

/-- Exceptions raised (or caught) by the module. `geomdl msg` is
`GeomdlException(msg)`; `indexError` and `keyError` are the Python built-ins. -/
inductive Err where
  | indexError
  | keyError
  | geomdl (msg : String)
deriving DecidableEq, Repr

/-- `isinstance(pt, (list, tuple))` — the only validation applied to `pt` by
`AbstractManager.set_ctrlpt`. -/
def isListOrTuple : PyVal → Bool
  | .list _ => true
  | .tuple _ => true
  | _ => false

/-- Python list read `xs[i]`: a negative index `i` with `-len(xs) <= i` wraps
to `i + len(xs)`; any other out-of-range index raises `IndexError`. -/
def pylist_get {α : Type} (xs : List α) (i : Int) : Except Err α :=
  if i < -(xs.length : Int) then .error .indexError
  else
    match xs[(if i < 0 then i + xs.length else i).toNat]? with
    | some v => .ok v
    | Option.none => .error .indexError

/-- Python list write `xs[i] = v`, with the same index semantics as
`pylist_get`. Returns the updated list. -/
def pylist_set {α : Type} (xs : List α) (i : Int) (v : α) : Except Err (List α) :=
  if i < -(xs.length : Int) then .error .indexError
  else
    let n := (if i < 0 then i + xs.length else i).toNat
    if n < xs.length then .ok (xs.set n v) else .error .indexError

/-- Tuple access `args[k]` for a literal non-negative `k`: raises `IndexError`
when the tuple is too short. -/
def pytuple_get {α : Type} (xs : List α) (k : Nat) : Except Err α :=
  match xs[k]? with
  | some v => .ok v
  | Option.none => .error .indexError

/-- `reduce(lambda x, y: x * y, self._size)` — `reduce` without an initial
value: the product of a non-empty list (it raises on an empty list, which
cannot happen for the arity-1/2/3 managers; that case is given value 0 here
and is never used by any theorem below). -/
def sizeProd : List Nat → Nat
  | [] => 0
  | x :: xs => xs.foldl (· * ·) x

/-- State of a manager: `_size` (per-dimension sizes, fixed at construction)
and `_points` (the flat control-point list). -/
structure Manager where
  size : List Nat
  points : List PyVal

/-- `AbstractManager.reset`: `self._points[:] = [[] for _ in range(num)]`
where `num = reduce(lambda x, y: x * y, self._size)`. -/
def resetPoints (size : List Nat) : List PyVal :=
  List.replicate (sizeProd size) (PyVal.list [])

/-- `reset` as a state transformer on a manager. -/
def resetM (m : Manager) : Manager :=
  ⟨m.size, resetPoints m.size⟩

/-- `AbstractManager.__init__(*args)`: stores the sizes and calls `reset`. -/
def mkManager (size : List Nat) : Manager :=
  ⟨size, resetPoints size⟩

/-- `CurveManager(n)`. -/
def mkCurve (n : Nat) : Manager := mkManager [n]

/-- `SurfaceManager(su, sv)`. -/
def mkSurface (su sv : Nat) : Manager := mkManager [su, sv]

/-- `VolumeManager(su, sv, sw)`. -/
def mkVolume (su sv sw : Nat) : Manager := mkManager [su, sv, sw]

/-- `AbstractManager.__getitem__`: `return self._points[idx]`. -/
def mgr_getitem (m : Manager) (i : Int) : Except Err PyVal :=
  pylist_get m.points i

/-- `AbstractManager.__setitem__`: `self._points[idx] = val`. -/
def mgr_setitem (m : Manager) (i : Int) (v : PyVal) : Except Err Manager :=
  match pylist_set m.points i v with
  | .ok ps => .ok ⟨m.size, ps⟩
  | .error e => .error e

/-- The validation performed by the abstract `AbstractManager.set_ctrlpt`
before any subclass computes an offset:
`if not isinstance(pt, (list, tuple)): raise GeomdlException(...)` then
`if len(args) != len(self._size): raise GeomdlException(...)`. -/
def abstract_set_ctrlpt (m : Manager) (pt : PyVal) (argc : Nat) : Except Err Unit :=
  if ¬ isListOrTuple pt then
    .error (.geomdl "'pt' argument should be a list or tuple")
  else if argc ≠ m.size.length then
    .error (.geomdl "Input dimensions are not compatible with the geometry")
  else
    .ok ()

/-- `AbstractManager.get_ctrlpt` is abstract with body `pass`: it performs no
validation at all. -/
def abstract_get_ctrlpt : Except Err Unit := .ok ()

/-- `CurveManager.get_ctrlpt(*args)`:
`super().get_ctrlpt(*args)` (a no-op), `idx = args[0]`, then
`try: return self._points[idx] except KeyError: return None`.
List indexing raises `IndexError`, never `KeyError`, so the handler is dead
code and an out-of-range `IndexError` propagates to the caller. -/
def curve_get (m : Manager) (args : List Int) : Except Err PyVal :=
  match pytuple_get args 0 with
  | .error e => .error e
  | .ok idx =>
    match pylist_get m.points idx with
    | .error .keyError => .ok .none
    | r => r

/-- `CurveManager.set_ctrlpt(pt, *args)`: base-class validation, `idx = args[0]`,
then `try: self._points[idx] = pt except IndexError: raise GeomdlException("Index is out of range")`. -/
def curve_set (m : Manager) (pt : PyVal) (args : List Int) : Except Err Manager :=
  match abstract_set_ctrlpt m pt args.length with
  | .error e => .error e
  | .ok _ =>
    match pytuple_get args 0 with
    | .error e => .error e
    | .ok idx =>
      match pylist_set m.points idx pt with
      | .ok ps => .ok ⟨m.size, ps⟩
      | .error .indexError => .error (.geomdl "Index is out of range")
      | .error e => .error e

/-- `SurfaceManager.get_ctrlpt(*args)`:
`idx = args[1] + (args[0] * self._size[1])`, then
`try: return self._points[idx] except IndexError: return None`.
Sub-expressions are evaluated in Python's left-to-right order. -/
def surface_get (m : Manager) (args : List Int) : Except Err PyVal :=
  match pytuple_get args 1 with
  | .error e => .error e
  | .ok v =>
    match pytuple_get args 0 with
    | .error e => .error e
    | .ok u =>
      match pytuple_get m.size 1 with
      | .error e => .error e
      | .ok sv =>
        match pylist_get m.points (v + u * (sv : Int)) with
        | .error .indexError => .ok .none
        | r => r

/-- `SurfaceManager.set_ctrlpt(pt, *args)`: base-class validation,
`idx = args[1] + (args[0] * self._size[1])`, then bounds-converting write. -/
def surface_set (m : Manager) (pt : PyVal) (args : List Int) : Except Err Manager :=
  match abstract_set_ctrlpt m pt args.length with
  | .error e => .error e
  | .ok _ =>
    match pytuple_get args 1 with
    | .error e => .error e
    | .ok v =>
      match pytuple_get args 0 with
      | .error e => .error e
      | .ok u =>
        match pytuple_get m.size 1 with
        | .error e => .error e
        | .ok sv =>
          match pylist_set m.points (v + u * (sv : Int)) pt with
          | .ok ps => .ok ⟨m.size, ps⟩
          | .error .indexError => .error (.geomdl "Index is out of range")
          | .error e => .error e

/-- `VolumeManager.get_ctrlpt(*args)`:
`idx = args[1] + (args[0] * self._size[1]) + (args[2] * self._size[0] * self._size[1])`,
then `try: return self._points[idx] except IndexError: return None`. -/
def volume_get (m : Manager) (args : List Int) : Except Err PyVal :=
  match pytuple_get args 1 with
  | .error e => .error e
  | .ok v =>
    match pytuple_get args 0 with
    | .error e => .error e
    | .ok u =>
      match pytuple_get m.size 1 with
      | .error e => .error e
      | .ok sv =>
        match pytuple_get args 2 with
        | .error e => .error e
        | .ok w =>
          match pytuple_get m.size 0 with
          | .error e => .error e
          | .ok su =>
            match pytuple_get m.size 1 with
            | .error e => .error e
            | .ok sv2 =>
              match pylist_get m.points (v + u * (sv : Int) + w * (su : Int) * (sv2 : Int)) with
              | .error .indexError => .ok .none
              | r => r

/-- `VolumeManager.set_ctrlpt(pt, *args)`: base-class validation, the same
offset expression as `volume_get`, then bounds-converting write. -/
def volume_set (m : Manager) (pt : PyVal) (args : List Int) : Except Err Manager :=
  match abstract_set_ctrlpt m pt args.length with
  | .error e => .error e
  | .ok _ =>
    match pytuple_get args 1 with
    | .error e => .error e
    | .ok v =>
      match pytuple_get args 0 with
      | .error e => .error e
      | .ok u =>
        match pytuple_get m.size 1 with
        | .error e => .error e
        | .ok sv =>
          match pytuple_get args 2 with
          | .error e => .error e
          | .ok w =>
            match pytuple_get m.size 0 with
            | .error e => .error e
            | .ok su =>
              match pytuple_get m.size 1 with
              | .error e => .error e
              | .ok sv2 =>
                match pylist_set m.points (v + u * (sv : Int) + w * (su : Int) * (sv2 : Int)) pt with
                | .ok ps => .ok ⟨m.size, ps⟩
                | .error .indexError => .error (.geomdl "Index is out of range")
                | .error e => .error e

/-- The offset expression `idx = args[0]` of `CurveManager`. -/
def curveOffset (u : Nat) : Nat := u

/-- The offset expression `idx = args[1] + (args[0] * self._size[1])` of
`SurfaceManager`, on in-range (non-negative) components. -/
def surfaceOffset (sv u v : Nat) : Nat := v + u * sv

/-- The offset expression
`idx = args[1] + (args[0] * self._size[1]) + (args[2] * self._size[0] * self._size[1])`
of `VolumeManager`, on in-range components. -/
def volumeOffset (su sv u v w : Nat) : Nat := v + u * sv + w * (su * sv)

/-! ## Lemmas about the Python indexing model -/

theorem pytuple_get_of_lt {α : Type} (xs : List α) (k : Nat) (h : k < xs.length) :
    pytuple_get xs k = .ok (xs.get ⟨k, h⟩) := by
  simp [pytuple_get, List.getElem?_eq_getElem h]

theorem pytuple_get_oob {α : Type} (xs : List α) (k : Nat) (h : xs.length ≤ k) :
    pytuple_get xs k = .error .indexError := by
  simp [pytuple_get, List.getElem?_eq_none h]

theorem pylist_get_of_lt {α : Type} (xs : List α) (i : Nat) (h : i < xs.length) :
    pylist_get xs (i : Int) = .ok (xs.get ⟨i, h⟩) := by
  unfold pylist_get
  have h1 : ¬ ((i : Int) < -(xs.length : Int)) := by omega
  have h2 : ¬ ((i : Int) < 0) := by omega
  simp [h1, h2, List.getElem?_eq_getElem h]

theorem pylist_get_neg {α : Type} (xs : List α) (i : Int)
    (h1 : -(xs.length : Int) ≤ i) (h2 : i < 0)
    (h3 : (i + xs.length).toNat < xs.length) :
    pylist_get xs i = .ok (xs.get ⟨(i + xs.length).toNat, h3⟩) := by
  unfold pylist_get
  have hnot : ¬ (i < -(xs.length : Int)) := by omega
  simp [hnot, h2, List.getElem?_eq_getElem h3]

theorem pylist_get_oob_high {α : Type} (xs : List α) (i : Int)
    (h : (xs.length : Int) ≤ i) :
    pylist_get xs i = .error .indexError := by
  unfold pylist_get
  have h1 : ¬ (i < -(xs.length : Int)) := by omega
  have h2 : ¬ (i < 0) := by omega
  simp [h1, h2, List.getElem?_eq_none (by omega : xs.length ≤ i.toNat)]

theorem pylist_get_oob_low {α : Type} (xs : List α) (i : Int)
    (h : i < -(xs.length : Int)) :
    pylist_get xs i = .error .indexError := by
  unfold pylist_get
  simp [h]

theorem pylist_set_of_lt {α : Type} (xs : List α) (i : Nat) (v : α)
    (h : i < xs.length) :
    pylist_set xs (i : Int) v = .ok (xs.set i v) := by
  unfold pylist_set
  have h1 : ¬ ((i : Int) < -(xs.length : Int)) := by omega
  have h2 : ¬ ((i : Int) < 0) := by omega
  simp [h1, h2, h]

theorem pylist_set_neg {α : Type} (xs : List α) (i : Int) (v : α)
    (h1 : -(xs.length : Int) ≤ i) (h2 : i < 0) :
    pylist_set xs i v = .ok (xs.set (i + xs.length).toNat v) := by
  unfold pylist_set
  have hnot : ¬ (i < -(xs.length : Int)) := by omega
  have hlt : (i + xs.length).toNat < xs.length := by omega
  simp [hnot, h2, hlt]

theorem pylist_set_oob_high {α : Type} (xs : List α) (i : Int) (v : α)
    (h : (xs.length : Int) ≤ i) :
    pylist_set xs i v = .error .indexError := by
  unfold pylist_set
  have h1 : ¬ (i < -(xs.length : Int)) := by omega
  have h2 : ¬ (i < 0) := by omega
  have h3 : ¬ (i.toNat < xs.length) := by omega
  simp [h1, h2, h3]

theorem pylist_set_oob_low {α : Type} (xs : List α) (i : Int) (v : α)
    (h : i < -(xs.length : Int)) :
    pylist_set xs i v = .error .indexError := by
  unfold pylist_set
  simp [h]

theorem abstract_set_ctrlpt_ok (m : Manager) (pt : PyVal) (argc : Nat)
    (hpt : isListOrTuple pt = true) (hc : argc = m.size.length) :
    abstract_set_ctrlpt m pt argc = .ok () := by
  simp [abstract_set_ctrlpt, hpt, hc]

theorem abstract_set_ctrlpt_badpt (m : Manager) (pt : PyVal) (argc : Nat)
    (hpt : ¬ isListOrTuple pt = true) :
    abstract_set_ctrlpt m pt argc
      = .error (.geomdl "'pt' argument should be a list or tuple") := by
  simp [abstract_set_ctrlpt, hpt]

theorem abstract_set_ctrlpt_badarity (m : Manager) (pt : PyVal) (argc : Nat)
    (hpt : isListOrTuple pt = true) (hc : argc ≠ m.size.length) :
    abstract_set_ctrlpt m pt argc
      = .error (.geomdl "Input dimensions are not compatible with the geometry") := by
  simp [abstract_set_ctrlpt, hpt, hc]

/-! ## Characterisation lemmas for the manager operations -/

theorem curve_set_ok (m : Manager) (pt : PyVal) (i : Nat)
    (hpt : isListOrTuple pt = true) (harity : m.size.length = 1)
    (hi : i < m.points.length) :
    curve_set m pt [(i : Int)] = .ok ⟨m.size, m.points.set i pt⟩ := by
  have h1 := abstract_set_ctrlpt_ok m pt 1 hpt (by omega)
  have h2 := pylist_set_of_lt m.points i pt hi
  simp [curve_set, h1, h2, pytuple_get]

theorem curve_get_ok (m : Manager) (i : Nat) (hi : i < m.points.length) :
    curve_get m [(i : Int)] = .ok (m.points.get ⟨i, hi⟩) := by
  have h2 := pylist_get_of_lt m.points i hi
  simp [curve_get, h2, pytuple_get]

theorem surface_set_ok (m : Manager) (pt : PyVal) (su sv u v : Nat)
    (hm : m.size = [su, sv]) (hpt : isListOrTuple pt = true)
    (hidx : v + u * sv < m.points.length) :
    surface_set m pt [(u : Int), (v : Int)]
      = .ok ⟨m.size, m.points.set (v + u * sv) pt⟩ := by
  have h1 := abstract_set_ctrlpt_ok m pt 2 hpt (by simp [hm])
  have h2 : pylist_set m.points ((v : Int) + (u : Int) * (sv : Int)) pt
      = .ok (m.points.set (v + u * sv) pt) := by
    rw [show ((v : Int) + (u : Int) * (sv : Int)) = ((v + u * sv : Nat) : Int) from by
      push_cast; ring]
    exact pylist_set_of_lt m.points _ pt hidx
  simp [surface_set, h1, pytuple_get, hm, h2]

theorem surface_get_ok (m : Manager) (su sv u v : Nat)
    (hm : m.size = [su, sv]) (hidx : v + u * sv < m.points.length) :
    surface_get m [(u : Int), (v : Int)]
      = .ok (m.points.get ⟨v + u * sv, hidx⟩) := by
  have h2 : pylist_get m.points ((v : Int) + (u : Int) * (sv : Int))
      = .ok (m.points.get ⟨v + u * sv, hidx⟩) := by
    rw [show ((v : Int) + (u : Int) * (sv : Int)) = ((v + u * sv : Nat) : Int) from by
      push_cast; ring]
    exact pylist_get_of_lt m.points _ hidx
  simp [surface_get, pytuple_get, hm, h2]

theorem volume_set_ok (m : Manager) (pt : PyVal) (su sv sw u v w : Nat)
    (hm : m.size = [su, sv, sw]) (hpt : isListOrTuple pt = true)
    (hidx : v + u * sv + w * (su * sv) < m.points.length) :
    volume_set m pt [(u : Int), (v : Int), (w : Int)]
      = .ok ⟨m.size, m.points.set (v + u * sv + w * (su * sv)) pt⟩ := by
  have h1 := abstract_set_ctrlpt_ok m pt 3 hpt (by simp [hm])
  have h2 : pylist_set m.points
        ((v : Int) + (u : Int) * (sv : Int) + (w : Int) * (su : Int) * (sv : Int)) pt
      = .ok (m.points.set (v + u * sv + w * (su * sv)) pt) := by
    rw [show ((v : Int) + (u : Int) * (sv : Int) + (w : Int) * (su : Int) * (sv : Int))
        = ((v + u * sv + w * (su * sv) : Nat) : Int) from by push_cast; ring]
    exact pylist_set_of_lt m.points _ pt hidx
  simp [volume_set, h1, pytuple_get, hm, h2]

theorem volume_get_ok (m : Manager) (su sv sw u v w : Nat)
    (hm : m.size = [su, sv, sw]) (hidx : v + u * sv + w * (su * sv) < m.points.length) :
    volume_get m [(u : Int), (v : Int), (w : Int)]
      = .ok (m.points.get ⟨v + u * sv + w * (su * sv), hidx⟩) := by
  have h2 : pylist_get m.points
        ((v : Int) + (u : Int) * (sv : Int) + (w : Int) * (su : Int) * (sv : Int))
      = .ok (m.points.get ⟨v + u * sv + w * (su * sv), hidx⟩) := by
    rw [show ((v : Int) + (u : Int) * (sv : Int) + (w : Int) * (su : Int) * (sv : Int))
        = ((v + u * sv + w * (su * sv) : Nat) : Int) from by push_cast; ring]
    exact pylist_get_of_lt m.points _ hidx
  simp [volume_get, pytuple_get, hm, h2]

theorem surfaceOffset_lt (su sv u v : Nat) (hu : u < su) (hv : v < sv) :
    v + u * sv < su * sv := by
  calc v + u * sv < sv + u * sv := by omega
    _ = (u + 1) * sv := by ring
    _ ≤ su * sv := Nat.mul_le_mul_right sv hu

theorem volumeOffset_lt (su sv sw u v w : Nat)
    (hu : u < su) (hv : v < sv) (hw : w < sw) :
    v + u * sv + w * (su * sv) < su * sv * sw := by
  have h1 := surfaceOffset_lt su sv u v hu hv
  calc v + u * sv + w * (su * sv) < su * sv + w * (su * sv) := by omega
    _ = (w + 1) * (su * sv) := by ring
    _ ≤ sw * (su * sv) := Nat.mul_le_mul_right (su * sv) hw
    _ = su * sv * sw := by ring

/-! ## Claim theorems -/

/-- C1: For every manager (CurveManager, SurfaceManager, VolumeManager)
constructed with positive sizes and for every multi-index whose components are
within the configured per-dimension bounds, calling `set_ctrlpt` with a
coordinate tuple and then `get_ctrlpt` with the same multi-index returns that
same coordinate tuple. (Stated for every manager state satisfying the module
invariant `len(points) = product(sizes)`, which includes all freshly
constructed and subsequently updated managers.) -/
theorem C1_set_get_roundtrip :
    (∀ (m : Manager) (n u : Nat) (pt : PyVal),
      m.size = [n] → m.points.length = n → u < n → isListOrTuple pt = true →
      ∃ m2, curve_set m pt [(u : Int)] = .ok m2 ∧
        curve_get m2 [(u : Int)] = .ok pt) ∧
    (∀ (m : Manager) (su sv u v : Nat) (pt : PyVal),
      m.size = [su, sv] → m.points.length = su * sv → u < su → v < sv →
      isListOrTuple pt = true →
      ∃ m2, surface_set m pt [(u : Int), (v : Int)] = .ok m2 ∧
        surface_get m2 [(u : Int), (v : Int)] = .ok pt) ∧
    (∀ (m : Manager) (su sv sw u v w : Nat) (pt : PyVal),
      m.size = [su, sv, sw] → m.points.length = su * sv * sw →
      u < su → v < sv → w < sw → isListOrTuple pt = true →
      ∃ m2, volume_set m pt [(u : Int), (v : Int), (w : Int)] = .ok m2 ∧
        volume_get m2 [(u : Int), (v : Int), (w : Int)] = .ok pt) := by
  refine ⟨?_, ?_, ?_⟩
  · intro m n u pt hm hlen hu hpt
    refine ⟨⟨m.size, m.points.set u pt⟩,
      curve_set_ok m pt u hpt (by simp [hm]) (by omega), ?_⟩
    rw [curve_get_ok ⟨m.size, m.points.set u pt⟩ u (by simp; omega)]
    simp
  · intro m su sv u v pt hm hlen hu hv hpt
    have hidx : v + u * sv < m.points.length := by
      rw [hlen]; exact surfaceOffset_lt su sv u v hu hv
    refine ⟨⟨m.size, m.points.set (v + u * sv) pt⟩,
      surface_set_ok m pt su sv u v hm hpt hidx, ?_⟩
    rw [surface_get_ok ⟨m.size, m.points.set (v + u * sv) pt⟩ su sv u v hm (by simp; omega)]
    simp
  · intro m su sv sw u v w pt hm hlen hu hv hw hpt
    have hidx : v + u * sv + w * (su * sv) < m.points.length := by
      rw [hlen]; exact volumeOffset_lt su sv sw u v w hu hv hw
    refine ⟨⟨m.size, m.points.set (v + u * sv + w * (su * sv)) pt⟩,
      volume_set_ok m pt su sv sw u v w hm hpt hidx, ?_⟩
    rw [volume_get_ok ⟨m.size, m.points.set (v + u * sv + w * (su * sv)) pt⟩
      su sv sw u v w hm (by simp; omega)]
    simp

/-- Witness for C1 at concrete inputs: a `CurveManager(2)`, a
`SurfaceManager(2, 3)` and a `VolumeManager(2, 3, 2)` round-trip a stored
point. -/
theorem C1_set_get_roundtrip_witness :
    (∃ m2, curve_set (mkCurve 2) (.list [.int 5]) [(1 : Int)] = .ok m2 ∧
      curve_get m2 [(1 : Int)] = .ok (.list [.int 5])) ∧
    (∃ m2, surface_set (mkSurface 2 3) (.list [.int 6]) [(1 : Int), (2 : Int)] = .ok m2 ∧
      surface_get m2 [(1 : Int), (2 : Int)] = .ok (.list [.int 6])) ∧
    (∃ m2, volume_set (mkVolume 2 3 2) (.list [.int 7]) [(1 : Int), (2 : Int), (1 : Int)]
        = .ok m2 ∧
      volume_get m2 [(1 : Int), (2 : Int), (1 : Int)] = .ok (.list [.int 7])) :=
  ⟨C1_set_get_roundtrip.1 (mkCurve 2) 2 1 (.list [.int 5]) rfl rfl (by omega) rfl,
   C1_set_get_roundtrip.2.1 (mkSurface 2 3) 2 3 1 2 (.list [.int 6]) rfl rfl
     (by omega) (by omega) rfl,
   C1_set_get_roundtrip.2.2 (mkVolume 2 3 2) 2 3 2 1 2 1 (.list [.int 7]) rfl rfl
     (by omega) (by omega) (by omega) rfl⟩

/-- C2 (code bug): the spec says an out-of-range `get_ctrlpt` returns the
not-found result (`None`) without raising; `SurfaceManager` and
`VolumeManager` do exactly that, but `CurveManager.get_ctrlpt` catches
`KeyError` instead of `IndexError` — list indexing never raises `KeyError` —
so `CurveManager(4).get_ctrlpt(10)` raises `IndexError` instead of
returning `None`. -/
theorem C2_get_out_of_range : curve_get (mkCurve 4) [(10 : Int)] = .error .indexError ∧
    surface_get (mkSurface 2 2) [(5 : Int), (0 : Int)] = .ok .none ∧
    volume_get (mkVolume 2 2 2) [(5 : Int), (0 : Int), (0 : Int)] = .ok .none :=
  ⟨rfl, rfl, rfl⟩

/-- C3: `SurfaceManager` linearizes `(u, v)` to `v + u * sizeV` and
`VolumeManager` linearizes `(u, v, w)` to `v + u * sizeV + w * sizeU * sizeV`;
in `VolumeManager(2, 3, 2)` the multi-index `(1, 2, 1)` addresses linear
offset `11` and the manager holds `12` slots. -/
theorem C3_linearization :
    (∀ (m : Manager) (su sv u v : Nat) (pt : PyVal),
      m.size = [su, sv] → isListOrTuple pt = true → v + u * sv < m.points.length →
      surface_set m pt [(u : Int), (v : Int)]
        = .ok ⟨m.size, m.points.set (v + u * sv) pt⟩) ∧
    (∀ (m : Manager) (su sv sw u v w : Nat),
      m.size = [su, sv, sw] →
      ∀ hidx : v + u * sv + w * (su * sv) < m.points.length,
      volume_get m [(u : Int), (v : Int), (w : Int)]
        = .ok (m.points.get ⟨v + u * sv + w * (su * sv), hidx⟩)) ∧
    (mkVolume 2 3 2).points.length = 12 ∧
    volume_set (mkVolume 2 3 2) (.list [.int 1]) [(1 : Int), (2 : Int), (1 : Int)]
      = .ok ⟨[2, 3, 2], (mkVolume 2 3 2).points.set 11 (.list [.int 1])⟩ :=
  ⟨fun m su sv u v pt hm hpt hidx => surface_set_ok m pt su sv u v hm hpt hidx,
   fun m su sv sw u v w hm hidx => volume_get_ok m su sv sw u v w hm hidx,
   rfl, rfl⟩

/-- Witness for C3 at concrete inputs: `SurfaceManager(5, 3)` writes
`(2, 1)` to offset `1 + 2*3 = 7`, and `VolumeManager(2, 3, 2)` reads
`(1, 2, 1)` from offset `11`. -/
theorem C3_linearization_witness :
    surface_set (mkSurface 5 3) (.list [.int 1, .int 2, .int 3]) [(2 : Int), (1 : Int)]
      = .ok ⟨(mkSurface 5 3).size,
          (mkSurface 5 3).points.set 7 (.list [.int 1, .int 2, .int 3])⟩ ∧
    volume_get (mkVolume 2 3 2) [(1 : Int), (2 : Int), (1 : Int)]
      = .ok ((mkVolume 2 3 2).points.get ⟨11, by decide⟩) :=
  ⟨C3_linearization.1 (mkSurface 5 3) 5 3 2 1 (.list [.int 1, .int 2, .int 3])
     rfl rfl (by decide),
   C3_linearization.2.1 (mkVolume 2 3 2) 2 3 2 1 2 1 rfl (by decide)⟩

theorem surfaceOffset_inj (sv u v u2 v2 : Nat) (hv : v < sv) (hv2 : v2 < sv)
    (h : surfaceOffset sv u v = surfaceOffset sv u2 v2) : u = u2 ∧ v = v2 := by
  unfold surfaceOffset at h
  have hsv : 0 < sv := by omega
  have h1 : (v + u * sv) % sv = v := by
    rw [Nat.add_mul_mod_self_right]; exact Nat.mod_eq_of_lt hv
  have h2 : (v2 + u2 * sv) % sv = v2 := by
    rw [Nat.add_mul_mod_self_right]; exact Nat.mod_eq_of_lt hv2
  have hvv : v = v2 := by rw [← h1, ← h2, h]
  have huu : u * sv = u2 * sv := by omega
  exact ⟨Nat.eq_of_mul_eq_mul_right hsv huu, hvv⟩

theorem surfaceOffset_surj (su sv i : Nat) (hi : i < su * sv) :
    ∃ u v, u < su ∧ v < sv ∧ surfaceOffset sv u v = i := by
  have hsv : 0 < sv := Nat.pos_of_ne_zero (fun h => by subst h; simp at hi)
  refine ⟨i / sv, i % sv, (Nat.div_lt_iff_lt_mul hsv).mpr hi, Nat.mod_lt _ hsv, ?_⟩
  unfold surfaceOffset
  rw [Nat.mul_comm (i / sv) sv]
  exact Nat.mod_add_div i sv

theorem volumeOffset_inj (su sv u v w u2 v2 w2 : Nat)
    (hu : u < su) (hv : v < sv) (hu2 : u2 < su) (hv2 : v2 < sv)
    (h : volumeOffset su sv u v w = volumeOffset su sv u2 v2 w2) :
    u = u2 ∧ v = v2 ∧ w = w2 := by
  unfold volumeOffset at h
  have hA : v + u * sv < su * sv := surfaceOffset_lt su sv u v hu hv
  have hA2 : v2 + u2 * sv < su * sv := surfaceOffset_lt su sv u2 v2 hu2 hv2
  have hp : 0 < su * sv := by omega
  have hd : (v + u * sv + w * (su * sv)) / (su * sv) = w := by
    rw [Nat.add_mul_div_right _ _ hp, Nat.div_eq_of_lt hA, Nat.zero_add]
  have hd2 : (v2 + u2 * sv + w2 * (su * sv)) / (su * sv) = w2 := by
    rw [Nat.add_mul_div_right _ _ hp, Nat.div_eq_of_lt hA2, Nat.zero_add]
  have hww : w = w2 := by rw [← hd, ← hd2, h]
  have hAA : v + u * sv = v2 + u2 * sv := by
    have : w * (su * sv) = w2 * (su * sv) := by rw [hww]
    omega
  obtain ⟨h1, h2⟩ := surfaceOffset_inj sv u v u2 v2 hv hv2 hAA
  exact ⟨h1, h2, hww⟩

theorem volumeOffset_surj (su sv sw i : Nat) (hi : i < su * sv * sw) :
    ∃ u v w, u < su ∧ v < sv ∧ w < sw ∧ volumeOffset su sv u v w = i := by
  have hp : 0 < su * sv := Nat.pos_of_ne_zero (fun h => by
    rw [h, Nat.zero_mul] at hi; omega)
  have hr : i % (su * sv) < su * sv := Nat.mod_lt _ hp
  obtain ⟨u, v, hu, hv, huv⟩ := surfaceOffset_surj su sv (i % (su * sv)) hr
  refine ⟨u, v, i / (su * sv), hu, hv, ?_, ?_⟩
  · exact (Nat.div_lt_iff_lt_mul hp).mpr (by
      calc i < su * sv * sw := hi
        _ = sw * (su * sv) := by ring)
  · unfold volumeOffset
    unfold surfaceOffset at huv
    rw [show v + u * sv + i / (su * sv) * (su * sv)
        = i % (su * sv) + i / (su * sv) * (su * sv) from by omega]
    rw [Nat.mul_comm (i / (su * sv)) (su * sv)]
    exact Nat.mod_add_div i (su * sv)

/-- C4: For every manager constructed with positive sizes, the arity-specific
mapping from valid multi-indices to linear offsets is a bijection onto
`[0, len(points))`: it lands in range, is injective (two distinct valid
multi-indices map to distinct offsets), and is surjective. -/
theorem C4_offset_bijective :
    (∀ n u : Nat, u < n → curveOffset u < n) ∧
    (∀ u u2 : Nat, curveOffset u = curveOffset u2 → u = u2) ∧
    (∀ n i : Nat, i < n → ∃ u, u < n ∧ curveOffset u = i) ∧
    (∀ su sv u v : Nat, u < su → v < sv → surfaceOffset sv u v < su * sv) ∧
    (∀ sv u v u2 v2 : Nat, v < sv → v2 < sv →
      surfaceOffset sv u v = surfaceOffset sv u2 v2 → u = u2 ∧ v = v2) ∧
    (∀ su sv i : Nat, i < su * sv → ∃ u v, u < su ∧ v < sv ∧ surfaceOffset sv u v = i) ∧
    (∀ su sv sw u v w : Nat, u < su → v < sv → w < sw →
      volumeOffset su sv u v w < su * sv * sw) ∧
    (∀ su sv u v w u2 v2 w2 : Nat, u < su → v < sv → u2 < su → v2 < sv →
      volumeOffset su sv u v w = volumeOffset su sv u2 v2 w2 →
      u = u2 ∧ v = v2 ∧ w = w2) ∧
    (∀ su sv sw i : Nat, i < su * sv * sw →
      ∃ u v w, u < su ∧ v < sv ∧ w < sw ∧ volumeOffset su sv u v w = i) :=
  ⟨fun _ _ hu => hu,
   fun _ _ h => h,
   fun _ i hi => ⟨i, hi, rfl⟩,
   fun su sv u v hu hv => surfaceOffset_lt su sv u v hu hv,
   fun sv u v u2 v2 hv hv2 h => surfaceOffset_inj sv u v u2 v2 hv hv2 h,
   fun su sv i hi => surfaceOffset_surj su sv i hi,
   fun su sv sw u v w hu hv hw => volumeOffset_lt su sv sw u v w hu hv hw,
   fun su sv u v w u2 v2 w2 hu hv hu2 hv2 h =>
     volumeOffset_inj su sv u v w u2 v2 w2 hu hv hu2 hv2 h,
   fun su sv sw i hi => volumeOffset_surj su sv sw i hi⟩

/-- Witness for C4: each part instantiated at concrete indices
(`SurfaceManager(5, 3)` and `VolumeManager(2, 3, 2)` shapes). -/
theorem C4_offset_bijective_witness :
    curveOffset 2 < 4 ∧
    (2 : Nat) = 2 ∧
    (∃ u, u < 4 ∧ curveOffset u = 3) ∧
    surfaceOffset 3 2 1 < 5 * 3 ∧
    ((2 : Nat) = 2 ∧ (1 : Nat) = 1) ∧
    (∃ u v, u < 5 ∧ v < 3 ∧ surfaceOffset 3 u v = 7) ∧
    volumeOffset 2 3 1 2 1 < 2 * 3 * 2 ∧
    ((1 : Nat) = 1 ∧ (2 : Nat) = 2 ∧ (1 : Nat) = 1) ∧
    (∃ u v w, u < 2 ∧ v < 3 ∧ w < 2 ∧ volumeOffset 2 3 u v w = 11) :=
  ⟨C4_offset_bijective.1 4 2 (by omega),
   C4_offset_bijective.2.1 2 2 rfl,
   C4_offset_bijective.2.2.1 4 3 (by omega),
   C4_offset_bijective.2.2.2.1 5 3 2 1 (by omega) (by omega),
   C4_offset_bijective.2.2.2.2.1 3 2 1 2 1 (by omega) (by omega) rfl,
   C4_offset_bijective.2.2.2.2.2.1 5 3 7 (by omega),
   C4_offset_bijective.2.2.2.2.2.2.1 2 3 2 1 2 1 (by omega) (by omega) (by omega),
   C4_offset_bijective.2.2.2.2.2.2.2.1 2 3 1 2 1 1 2 1 (by omega) (by omega)
     (by omega) (by omega) rfl,
   C4_offset_bijective.2.2.2.2.2.2.2.2 2 3 2 11 (by omega)⟩

theorem curve_set_oob (m : Manager) (pt : PyVal) (i : Int)
    (hpt : isListOrTuple pt = true) (harity : m.size.length = 1)
    (h : (m.points.length : Int) ≤ i ∨ i < -(m.points.length : Int)) :
    curve_set m pt [i] = .error (.geomdl "Index is out of range") := by
  have h1 := abstract_set_ctrlpt_ok m pt 1 hpt (by omega)
  have h2 : pylist_set m.points i pt = .error .indexError := by
    rcases h with h | h
    · exact pylist_set_oob_high m.points i pt h
    · exact pylist_set_oob_low m.points i pt h
  simp [curve_set, h1, h2, pytuple_get]

theorem surface_set_oob (m : Manager) (pt : PyVal) (su sv : Nat) (u v : Int)
    (hm : m.size = [su, sv]) (hpt : isListOrTuple pt = true)
    (h : (m.points.length : Int) ≤ v + u * sv ∨ v + u * sv < -(m.points.length : Int)) :
    surface_set m pt [u, v] = .error (.geomdl "Index is out of range") := by
  have h1 := abstract_set_ctrlpt_ok m pt 2 hpt (by simp [hm])
  have h2 : pylist_set m.points (v + u * (sv : Int)) pt = .error .indexError := by
    rcases h with h | h
    · exact pylist_set_oob_high m.points _ pt h
    · exact pylist_set_oob_low m.points _ pt h
  simp [surface_set, h1, h2, pytuple_get, hm]

theorem volume_set_oob (m : Manager) (pt : PyVal) (su sv sw : Nat) (u v w : Int)
    (hm : m.size = [su, sv, sw]) (hpt : isListOrTuple pt = true)
    (h : (m.points.length : Int) ≤ v + u * sv + w * su * sv ∨
       v + u * sv + w * su * sv < -(m.points.length : Int)) :
    volume_set m pt [u, v, w] = .error (.geomdl "Index is out of range") := by
  have h1 := abstract_set_ctrlpt_ok m pt 3 hpt (by simp [hm])
  have h2 : pylist_set m.points (v + u * (sv : Int) + w * (su : Int) * (sv : Int)) pt
      = .error .indexError := by
    rcases h with h | h
    · exact pylist_set_oob_high m.points _ pt h
    · exact pylist_set_oob_low m.points _ pt h
  simp [volume_set, h1, h2, pytuple_get, hm]

/-- C5 counterexample: the claim says a `set_ctrlpt` whose computed linear
offset lies outside the storage bounds `[0, total)` signals `IndexOutOfRange`,
but a negative offset with `-total <= idx < 0` is accepted via Python
negative-index wraparound: `CurveManager(4).set_ctrlpt([7], -1)` writes slot
`3` and returns normally. -/
theorem C5_counterexample :
    (-1 : Int) < 0 ∧
    curve_set (mkCurve 4) (.list [.int 7]) [(-1 : Int)]
      = .ok ⟨[4], [.list [], .list [], .list [], .list [.int 7]]⟩ :=
  ⟨by omega, rfl⟩

/-- C5 (amended): a `set_ctrlpt` whose computed linear offset lies outside
`[-total, total)` — the range accepted by Python list indexing — signals
`IndexOutOfRange` and performs no mutation (the single failing assignment
raises before any change, so the stored points are unchanged); offsets in
`[-total, 0)` instead wrap around (see C10). In particular
`CurveManager(4).set_ctrlpt([0,0,0], 10)` signals `IndexOutOfRange`. -/
theorem C5_set_out_of_range :
    (∀ (m : Manager) (pt : PyVal) (i : Int),
      isListOrTuple pt = true → m.size.length = 1 →
      ((m.points.length : Int) ≤ i ∨ i < -(m.points.length : Int)) →
      curve_set m pt [i] = .error (.geomdl "Index is out of range")) ∧
    (∀ (m : Manager) (pt : PyVal) (su sv : Nat) (u v : Int),
      m.size = [su, sv] → isListOrTuple pt = true →
      ((m.points.length : Int) ≤ v + u * sv ∨ v + u * sv < -(m.points.length : Int)) →
      surface_set m pt [u, v] = .error (.geomdl "Index is out of range")) ∧
    (∀ (m : Manager) (pt : PyVal) (su sv sw : Nat) (u v w : Int),
      m.size = [su, sv, sw] → isListOrTuple pt = true →
      ((m.points.length : Int) ≤ v + u * sv + w * su * sv ∨
        v + u * sv + w * su * sv < -(m.points.length : Int)) →
      volume_set m pt [u, v, w] = .error (.geomdl "Index is out of range")) ∧
    curve_set (mkCurve 4) (.list [.int 0, .int 0, .int 0]) [(10 : Int)]
      = .error (.geomdl "Index is out of range") :=
  ⟨fun m pt i hpt harity h => curve_set_oob m pt i hpt harity h,
   fun m pt su sv u v hm hpt h => surface_set_oob m pt su sv u v hm hpt h,
   fun m pt su sv sw u v w hm hpt h => volume_set_oob m pt su sv sw u v w hm hpt h,
   rfl⟩

/-- Witness for C5 at concrete inputs: out-of-range writes on all three
managers signal `IndexOutOfRange`. -/
theorem C5_set_out_of_range_witness :
    curve_set (mkCurve 4) (.list [.int 0]) [(5 : Int)]
      = .error (.geomdl "Index is out of range") ∧
    surface_set (mkSurface 2 2) (.list [.int 0]) [(3 : Int), (0 : Int)]
      = .error (.geomdl "Index is out of range") ∧
    volume_set (mkVolume 2 2 2) (.list [.int 0]) [(0 : Int), (0 : Int), (2 : Int)]
      = .error (.geomdl "Index is out of range") :=
  ⟨C5_set_out_of_range.1 (mkCurve 4) (.list [.int 0]) 5 rfl rfl (by left; decide),
   C5_set_out_of_range.2.1 (mkSurface 2 2) (.list [.int 0]) 2 2 3 0 rfl rfl
     (by left; decide),
   C5_set_out_of_range.2.2.1 (mkVolume 2 2 2) (.list [.int 0]) 2 2 2 0 0 2 rfl rfl
     (by left; decide)⟩

/-- C6 counterexample: the claim says both `get_ctrlpt` and `set_ctrlpt`
validate that the number of multi-index components equals the manager's
arity; but the abstract `get_ctrlpt` body is `pass`, so a `get_ctrlpt` with
three components on an arity-2 `SurfaceManager` silently ignores the extra
component and returns a point instead of signalling `InvalidArgument`. -/
theorem C6_counterexample :
    surface_get (mkSurface 2 2) [(0 : Int), (0 : Int), (5 : Int)] = .ok (.list []) :=
  rfl

/-- C6 (amended): `set_ctrlpt` validates, before computing any offset, that
the number of multi-index components equals the manager's arity and signals
`InvalidArgument` otherwise; `get_ctrlpt` performs no arity validation at all
(the abstract `get_ctrlpt` is a no-op): extra components are ignored, and
missing components surface as a raw `IndexError` from tuple access. -/
theorem C6_arity_validation :
    (∀ (m : Manager) (pt : PyVal) (args : List Int),
      isListOrTuple pt = true → args.length ≠ m.size.length →
      curve_set m pt args
        = .error (.geomdl "Input dimensions are not compatible with the geometry")) ∧
    (∀ (m : Manager) (pt : PyVal) (args : List Int),
      isListOrTuple pt = true → args.length ≠ m.size.length →
      surface_set m pt args
        = .error (.geomdl "Input dimensions are not compatible with the geometry")) ∧
    (∀ (m : Manager) (pt : PyVal) (args : List Int),
      isListOrTuple pt = true → args.length ≠ m.size.length →
      volume_set m pt args
        = .error (.geomdl "Input dimensions are not compatible with the geometry")) ∧
    (∀ (m : Manager) (i : Int) (rest : List Int),
      curve_get m (i :: rest) = curve_get m [i]) ∧
    (∀ (m : Manager) (u v : Int) (rest : List Int),
      surface_get m (u :: v :: rest) = surface_get m [u, v]) ∧
    (∀ (m : Manager) (u v w : Int) (rest : List Int),
      volume_get m (u :: v :: w :: rest) = volume_get m [u, v, w]) ∧
    curve_get (mkCurve 4) [] = .error .indexError := by
  refine ⟨?_, ?_, ?_, ?_, ?_, ?_, rfl⟩
  · intro m pt args hpt hc
    have h1 := abstract_set_ctrlpt_badarity m pt args.length hpt hc
    simp [curve_set, h1]
  · intro m pt args hpt hc
    have h1 := abstract_set_ctrlpt_badarity m pt args.length hpt hc
    simp [surface_set, h1]
  · intro m pt args hpt hc
    have h1 := abstract_set_ctrlpt_badarity m pt args.length hpt hc
    simp [volume_set, h1]
  · intro m i rest
    simp [curve_get, pytuple_get]
  · intro m u v rest
    simp [surface_get, pytuple_get]
  · intro m u v w rest
    simp [volume_get, pytuple_get]

/-- Witness for C6 at concrete inputs: wrong-arity writes signal
`InvalidArgument` on all three managers, and reads ignore an extra
component. -/
theorem C6_arity_validation_witness :
    curve_set (mkCurve 4) (.list [.int 1]) [(0 : Int), (0 : Int)]
      = .error (.geomdl "Input dimensions are not compatible with the geometry") ∧
    surface_set (mkSurface 2 2) (.list [.int 1]) [(0 : Int)]
      = .error (.geomdl "Input dimensions are not compatible with the geometry") ∧
    volume_set (mkVolume 2 2 2) (.list [.int 1]) [(0 : Int), (0 : Int)]
      = .error (.geomdl "Input dimensions are not compatible with the geometry") ∧
    curve_get (mkCurve 4) [(1 : Int), (9 : Int)] = curve_get (mkCurve 4) [(1 : Int)] ∧
    surface_get (mkSurface 2 2) [(0 : Int), (0 : Int), (5 : Int)]
      = surface_get (mkSurface 2 2) [(0 : Int), (0 : Int)] ∧
    volume_get (mkVolume 2 2 2) [(0 : Int), (0 : Int), (0 : Int), (5 : Int)]
      = volume_get (mkVolume 2 2 2) [(0 : Int), (0 : Int), (0 : Int)] :=
  ⟨C6_arity_validation.1 (mkCurve 4) (.list [.int 1]) [0, 0] rfl (by simp [mkCurve, mkManager]),
   C6_arity_validation.2.1 (mkSurface 2 2) (.list [.int 1]) [0] rfl
     (by simp [mkSurface, mkManager]),
   C6_arity_validation.2.2.1 (mkVolume 2 2 2) (.list [.int 1]) [0, 0] rfl
     (by simp [mkVolume, mkManager]),
   C6_arity_validation.2.2.2.1 (mkCurve 4) 1 [9],
   C6_arity_validation.2.2.2.2.1 (mkSurface 2 2) 0 0 [5],
   C6_arity_validation.2.2.2.2.2.1 (mkVolume 2 2 2) 0 0 0 [5]⟩

/-- C7 counterexample: the claim says `set_ctrlpt` validates that the
coordinate tuple is a non-empty sequence of numbers; but the code only checks
`isinstance(pt, (list, tuple))`, so the empty tuple is accepted and stored. -/
theorem C7_counterexample :
    curve_set (mkCurve 2) (.tuple []) [(0 : Int)]
      = .ok ⟨[2], [.tuple [], .list []]⟩ :=
  rfl

/-- C7 (amended): `set_ctrlpt` validates, before computing any offset, only
that the coordinate argument is a list or a tuple, signalling
`InvalidArgument` for any other value; the contents are not inspected — an
empty tuple and non-numeric entries are accepted and stored as given. -/
theorem C7_pt_validation :
    (∀ (m : Manager) (pt : PyVal) (args : List Int),
      isListOrTuple pt = false →
      curve_set m pt args = .error (.geomdl "'pt' argument should be a list or tuple")) ∧
    (∀ (m : Manager) (pt : PyVal) (args : List Int),
      isListOrTuple pt = false →
      surface_set m pt args
        = .error (.geomdl "'pt' argument should be a list or tuple")) ∧
    (∀ (m : Manager) (pt : PyVal) (args : List Int),
      isListOrTuple pt = false →
      volume_set m pt args
        = .error (.geomdl "'pt' argument should be a list or tuple")) ∧
    curve_set (mkCurve 2) (.list [.str "a"]) [(1 : Int)]
      = .ok ⟨[2], [.list [], .list [.str "a"]]⟩ := by
  refine ⟨?_, ?_, ?_, rfl⟩
  · intro m pt args hpt
    have h1 := abstract_set_ctrlpt_badpt m pt args.length (by simp [hpt])
    simp [curve_set, h1]
  · intro m pt args hpt
    have h1 := abstract_set_ctrlpt_badpt m pt args.length (by simp [hpt])
    simp [surface_set, h1]
  · intro m pt args hpt
    have h1 := abstract_set_ctrlpt_badpt m pt args.length (by simp [hpt])
    simp [volume_set, h1]

/-- Witness for C7 at concrete inputs: a plain integer, a string and `None`
are all rejected as control-point values. -/
theorem C7_pt_validation_witness :
    curve_set (mkCurve 2) (.int 5) [(0 : Int)]
      = .error (.geomdl "'pt' argument should be a list or tuple") ∧
    surface_set (mkSurface 2 2) (.str "pt") [(0 : Int), (0 : Int)]
      = .error (.geomdl "'pt' argument should be a list or tuple") ∧
    volume_set (mkVolume 2 2 2) .none [(0 : Int), (0 : Int), (0 : Int)]
      = .error (.geomdl "'pt' argument should be a list or tuple") :=
  ⟨C7_pt_validation.1 (mkCurve 2) (.int 5) [0] rfl,
   C7_pt_validation.2.1 (mkSurface 2 2) (.str "pt") [0, 0] rfl,
   C7_pt_validation.2.2.1 (mkVolume 2 2 2) .none [0, 0, 0] rfl⟩

/-- C8: For every manager constructed with sizes `(s1,...,sk)`, `k` in
{1,2,3}, immediately after construction the points sequence has exactly
`s1*...*sk` slots, every slot holds the empty placeholder `[]`, and `reset`
replaces the stored points with fresh empty placeholders regardless of what
was stored before (discarding any coordinates); `reset` is total on valid
states, so it never fails. -/
theorem C8_construction_reset :
    (∀ n : Nat, (mkCurve n).points.length = n ∧
      ∀ p ∈ (mkCurve n).points, p = .list []) ∧
    (∀ su sv : Nat, (mkSurface su sv).points.length = su * sv ∧
      ∀ p ∈ (mkSurface su sv).points, p = .list []) ∧
    (∀ su sv sw : Nat, (mkVolume su sv sw).points.length = su * sv * sw ∧
      ∀ p ∈ (mkVolume su sv sw).points, p = .list []) ∧
    (∀ m : Manager,
      resetM m = ⟨m.size, List.replicate (sizeProd m.size) (.list [])⟩) := by
  refine ⟨?_, ?_, ?_, fun m => rfl⟩
  · intro n
    exact ⟨by simp [mkCurve, mkManager, resetPoints, sizeProd],
      fun p hp => List.eq_of_mem_replicate hp⟩
  · intro su sv
    exact ⟨by simp [mkSurface, mkManager, resetPoints, sizeProd],
      fun p hp => List.eq_of_mem_replicate hp⟩
  · intro su sv sw
    exact ⟨by simp [mkVolume, mkManager, resetPoints, sizeProd],
      fun p hp => List.eq_of_mem_replicate hp⟩

/-- Witness for C8 at concrete inputs. -/
theorem C8_construction_reset_witness :
    (mkCurve 3).points.length = 3 ∧
    (mkSurface 2 3).points.length = 6 ∧
    (mkVolume 2 3 2).points.length = 12 ∧
    (mkSurface 2 3).points.get ⟨4, by decide⟩ = .list [] :=
  ⟨(C8_construction_reset.1 3).1,
   (C8_construction_reset.2.1 2 3).1,
   (C8_construction_reset.2.2.1 2 3 2).1,
   (C8_construction_reset.2.1 2 3).2 _ (List.get_mem _ _ _)⟩

/-! ## Aliasing model for `__copy__` / `__deepcopy__` (C9)

Python objects live on a heap and variables hold references, so the aliasing
consequences of `__copy__` (whose `__dict__.update` copies the *reference* to
`_points`) versus `__deepcopy__` (which recursively copies the points list and
every coordinate tuple inside it) are stated over an explicit object graph:
`arrs` holds points-array objects (lists of references into `tups`) and `tups`
holds coordinate-tuple objects. A manager's `_points` attribute is a reference
`pts` into `arrs`; slot `i` of that array is a reference into `tups`. -/

structure CPHeap where
  arrs : List (List Nat)
  tups : List (List Int)

structure RefMgr where
  size : List Nat
  pts : Nat

/-- `AbstractManager.__copy__`: `result.__dict__.update(self.__dict__)` — the
duplicate holds the same `_points` reference as the original; nothing is
allocated. -/
def py_copy (m : RefMgr) : RefMgr := ⟨m.size, m.pts⟩

/-- `AbstractManager.__deepcopy__`: every attribute is copied with
`copy.deepcopy`, so the duplicate gets a fresh points array whose slots
reference fresh copies of the original coordinate tuples. Fresh objects are
appended to the end of each heap component. -/
def py_deepcopy (h : CPHeap) (m : RefMgr) : CPHeap × RefMgr :=
  let arr := h.arrs.getD m.pts []
  let base := h.tups.length
  let newTups := arr.map (fun t => h.tups.getD t [])
  let newArr := (List.range arr.length).map (fun k => base + k)
  (⟨h.arrs ++ [newArr], h.tups ++ newTups⟩, ⟨m.size, h.arrs.length⟩)

/-- In-place mutation of one coordinate of the tuple in slot `i` of a
manager: `mgr[i][j] = x`. Mutates the tuple object; no reference changes. -/
def mutateCoord (h : CPHeap) (m : RefMgr) (i j : Nat) (x : Int) : CPHeap :=
  let t := (h.arrs.getD m.pts []).getD i 0
  ⟨h.arrs, h.tups.set t ((h.tups.getD t []).set j x)⟩

/-- The coordinate tuple currently held in slot `i` of a manager. -/
def readSlot (h : CPHeap) (m : RefMgr) (i : Nat) : List Int :=
  h.tups.getD ((h.arrs.getD m.pts []).getD i 0) []

/-- A manager whose references all point into the heap. -/
def validMgr (h : CPHeap) (m : RefMgr) : Prop :=
  m.pts < h.arrs.length ∧ ∀ t ∈ h.arrs.getD m.pts [], t < h.tups.length

theorem getD_eq_of_getElem? {α : Type} (l : List α) (n : Nat) (d a : α)
    (h : l[n]? = some a) : l.getD n d = a := by
  rw [List.getD_eq_getElem?_getD, h]; rfl

/-- C9: deep duplication yields an independent manager — mutating a
coordinate tuple through the deep duplicate leaves the original manager's
corresponding slot unchanged; shallow duplication shares the underlying
storage — the same mutation through the shallow duplicate is visible in the
original manager's slot. -/
theorem C9_copy_independence :
    (∀ (h : CPHeap) (m : RefMgr) (i j : Nat) (x : Int),
      validMgr h m → i < (h.arrs.getD m.pts []).length →
      readSlot (mutateCoord (py_deepcopy h m).1 (py_deepcopy h m).2 i j x) m i
        = readSlot h m i) ∧
    (∀ (h : CPHeap) (m : RefMgr) (i j : Nat) (x : Int),
      validMgr h m → i < (h.arrs.getD m.pts []).length →
      readSlot (mutateCoord h (py_copy m) i j x) m i
        = (readSlot h m i).set j x) := by
  constructor
  · intro h m i j x hvalid hi
    obtain ⟨hpts, htups⟩ := hvalid
    set arr := h.arrs.getD m.pts [] with harr
    have harr_get : arr[i]? = some arr[i] := List.getElem?_eq_getElem hi
    have hmem : arr[i] ∈ arr := List.getElem_mem hi
    have ht_lt : arr[i] < h.tups.length := htups _ hmem
    have ht_eq : arr.getD i 0 = arr[i] := getD_eq_of_getElem? arr i 0 _ harr_get
    -- the deep copy's points array is the freshly allocated one
    have hlen_range : ((List.range arr.length).map (fun k => h.tups.length + k)).length
        = arr.length := by simp
    have hnewarr : (h.arrs ++ [(List.range arr.length).map (fun k => h.tups.length + k)])[h.arrs.length]?
        = some ((List.range arr.length).map (fun k => h.tups.length + k)) :=
      List.getElem?_concat_length _ _
    -- the fresh tuple reference for slot i is `h.tups.length + i`
    have hfresh : ((List.range arr.length).map (fun k => h.tups.length + k))[i]?
        = some (h.tups.length + i) := by
      rw [List.getElem?_map]
      simp [List.getElem?_range hi]
    -- the original's array is untouched by the copy and the mutation
    have horig : (h.arrs ++ [(List.range arr.length).map (fun k => h.tups.length + k)])[m.pts]?
        = h.arrs[m.pts]? := by
      rw [List.getElem?_append]; simp [hpts]
    simp only [readSlot, mutateCoord, py_deepcopy]
    rw [getD_eq_of_getElem? _ _ _ _ hnewarr]
    rw [getD_eq_of_getElem? _ _ _ _ hfresh]
    have harrs_same : (h.arrs ++ [(List.range arr.length).map (fun k => h.tups.length + k)]).getD m.pts []
        = arr := by
      rw [List.getD_eq_getElem?_getD, horig, ← List.getD_eq_getElem?_getD]
    rw [harrs_same, ht_eq]
    -- reading reference `arr[i] < h.tups.length` is unaffected by the write
    -- at the fresh reference `h.tups.length + i`
    have hne : h.tups.length + i ≠ arr[i] := by omega
    rw [List.getD_eq_getElem?_getD, List.getElem?_set_ne hne]
    rw [List.getElem?_append]
    simp only [ht_lt, if_pos]
    rw [List.getD_eq_getElem?_getD, List.getElem?_eq_getElem ht_lt]
  · intro h m i j x hvalid hi
    obtain ⟨hpts, htups⟩ := hvalid
    set arr := h.arrs.getD m.pts [] with harr
    have hmem : arr[i] ∈ arr := List.getElem_mem hi
    have ht_lt : arr[i] < h.tups.length := htups _ hmem
    have ht_eq : arr.getD i 0 = arr[i] :=
      getD_eq_of_getElem? arr i 0 _ (List.getElem?_eq_getElem hi)
    simp only [readSlot, mutateCoord, py_copy]
    rw [show (⟨m.size, m.pts⟩ : RefMgr).pts = m.pts from rfl, ← harr, ht_eq]
    rw [List.getD_eq_getElem?_getD, List.getElem?_set_eq_of_lt _ ht_lt]
    rfl

/-- Witness for C9 on a concrete heap: one manager with one slot referencing
the tuple `[1, 2]`; setting coordinate 0 to 9 through a deep duplicate leaves
the original reading `[1, 2]`, while the same mutation through a shallow
duplicate makes the original read `[9, 2]`. -/
theorem C9_copy_independence_witness :
    readSlot
      (mutateCoord (py_deepcopy ⟨[[0]], [[1, 2]]⟩ ⟨[1], 0⟩).1
        (py_deepcopy ⟨[[0]], [[1, 2]]⟩ ⟨[1], 0⟩).2 0 0 9)
      ⟨[1], 0⟩ 0 = [1, 2] ∧
    readSlot (mutateCoord ⟨[[0]], [[1, 2]]⟩ (py_copy ⟨[1], 0⟩) 0 0 9)
      ⟨[1], 0⟩ 0 = [9, 2] :=
  ⟨C9_copy_independence.1 ⟨[[0]], [[1, 2]]⟩ ⟨[1], 0⟩ 0 0 9
     ⟨by decide, by decide⟩ (by decide),
   C9_copy_independence.2 ⟨[[0]], [[1, 2]]⟩ ⟨[1], 0⟩ 0 0 9
     ⟨by decide, by decide⟩ (by decide)⟩

theorem curve_set_neg (m : Manager) (pt : PyVal) (i : Int)
    (hpt : isListOrTuple pt = true) (harity : m.size.length = 1)
    (h1 : -(m.points.length : Int) ≤ i) (h2 : i < 0) :
    curve_set m pt [i] = .ok ⟨m.size, m.points.set (i + m.points.length).toNat pt⟩ := by
  have ha := abstract_set_ctrlpt_ok m pt 1 hpt (by omega)
  have hs := pylist_set_neg m.points i pt h1 h2
  simp [curve_set, ha, hs, pytuple_get]

theorem curve_get_neg (m : Manager) (i : Int)
    (h1 : -(m.points.length : Int) ≤ i) (h2 : i < 0)
    (h3 : (i + m.points.length).toNat < m.points.length) :
    curve_get m [i] = .ok (m.points.get ⟨(i + m.points.length).toNat, h3⟩) := by
  have hg := pylist_get_neg m.points i h1 h2 h3
  simp [curve_get, hg, pytuple_get]

theorem surface_get_neg (m : Manager) (su sv : Nat) (u v : Int)
    (hm : m.size = [su, sv])
    (h1 : -(m.points.length : Int) ≤ v + u * sv) (h2 : v + u * sv < 0)
    (h3 : (v + u * sv + m.points.length).toNat < m.points.length) :
    surface_get m [u, v]
      = .ok (m.points.get ⟨(v + u * sv + m.points.length).toNat, h3⟩) := by
  have hg := pylist_get_neg m.points (v + u * (sv : Int)) h1 h2 h3
  simp [surface_get, pytuple_get, hm, hg]

/-- C10: a multi-index whose computed linear offset `idx` is negative with
`-total <= idx` is accepted via Python negative-index wraparound:
`set_ctrlpt` writes the slot at `idx + total` without signalling
`IndexOutOfRange`, `get_ctrlpt` returns the point at `idx + total` instead of
the not-found result, bounds-checked linear access (`__getitem__` /
`__setitem__`) behaves the same way, and `CurveManager(4).set_ctrlpt(pt, -1)`
writes slot 3. -/
theorem C10_negative_wraparound :
    (∀ (m : Manager) (pt : PyVal) (i : Int),
      isListOrTuple pt = true → m.size.length = 1 →
      -(m.points.length : Int) ≤ i → i < 0 →
      curve_set m pt [i]
        = .ok ⟨m.size, m.points.set (i + m.points.length).toNat pt⟩) ∧
    (∀ (m : Manager) (i : Int),
      -(m.points.length : Int) ≤ i → i < 0 →
      ∀ h3 : (i + m.points.length).toNat < m.points.length,
      curve_get m [i] = .ok (m.points.get ⟨(i + m.points.length).toNat, h3⟩)) ∧
    (∀ (m : Manager) (su sv : Nat) (u v : Int),
      m.size = [su, sv] →
      -(m.points.length : Int) ≤ v + u * sv → v + u * sv < 0 →
      ∀ h3 : (v + u * sv + m.points.length).toNat < m.points.length,
      surface_get m [u, v]
        = .ok (m.points.get ⟨(v + u * sv + m.points.length).toNat, h3⟩)) ∧
    (∀ (m : Manager) (i : Int),
      -(m.points.length : Int) ≤ i → i < 0 →
      ∀ h3 : (i + m.points.length).toNat < m.points.length,
      mgr_getitem m i = .ok (m.points.get ⟨(i + m.points.length).toNat, h3⟩)) ∧
    (∀ (m : Manager) (i : Int) (v : PyVal),
      -(m.points.length : Int) ≤ i → i < 0 →
      mgr_setitem m i v = .ok ⟨m.size, m.points.set (i + m.points.length).toNat v⟩) ∧
    curve_set (mkCurve 4) (.list [.int 1]) [(-1 : Int)]
      = .ok ⟨[4], (mkCurve 4).points.set 3 (.list [.int 1])⟩ := by
  refine ⟨?_, ?_, ?_, ?_, ?_, rfl⟩
  · exact fun m pt i hpt harity h1 h2 => curve_set_neg m pt i hpt harity h1 h2
  · exact fun m i h1 h2 h3 => curve_get_neg m i h1 h2 h3
  · exact fun m su sv u v hm h1 h2 h3 => surface_get_neg m su sv u v hm h1 h2 h3
  · intro m i h1 h2 h3
    simp [mgr_getitem, pylist_get_neg m.points i h1 h2 h3]
  · intro m i v h1 h2
    simp [mgr_setitem, pylist_set_neg m.points i v h1 h2]

/-- Witness for C10 at concrete inputs: negative offsets wrap on writes,
reads and linear element access. -/
theorem C10_negative_wraparound_witness :
    curve_set (mkCurve 4) (.list [.int 1]) [(-2 : Int)]
      = .ok ⟨[4], (mkCurve 4).points.set 2 (.list [.int 1])⟩ ∧
    curve_get ⟨[2], [.list [.int 1], .list [.int 2]]⟩ [(-1 : Int)]
      = .ok (.list [.int 2]) ∧
    surface_get (mkSurface 2 2) [(0 : Int), (-1 : Int)] = .ok (.list []) ∧
    mgr_getitem (mkCurve 4) (-1) = .ok (.list []) ∧
    mgr_setitem (mkCurve 4) (-4) (.int 9) = .ok ⟨[4], (mkCurve 4).points.set 0 (.int 9)⟩ :=
  ⟨C10_negative_wraparound.1 (mkCurve 4) (.list [.int 1]) (-2) rfl rfl
     (by decide) (by decide),
   C10_negative_wraparound.2.1 ⟨[2], [.list [.int 1], .list [.int 2]]⟩ (-1)
     (by decide) (by decide) (by decide),
   C10_negative_wraparound.2.2.1 (mkSurface 2 2) 2 2 0 (-1) rfl
     (by decide) (by decide) (by decide),
   C10_negative_wraparound.2.2.2.1 (mkCurve 4) (-1) (by decide) (by decide) (by decide),
   C10_negative_wraparound.2.2.2.2.1 (mkCurve 4) (-4) (.int 9) (by decide) (by decide)⟩

end ControlPoints
